import Mathlib

/-!
Verification of the lamini client core: the streaming-session state machine
(`lamini/api/streaming_completion.py`) and the generation-node pipeline
(`lamini/generation/generation_node.py`), shallowly embedded in Lean 4.
-/

/-- A JSON-like value stored in a request map or returned as a data fragment.
`null` is Python's `None` appearing as a dictionary value. -/
inductive Value where
  | null
  | str (s : String)
  | num (n : Nat)
deriving DecidableEq

/-- A Python dictionary with string keys, modelled as an insertion-ordered
association list (keys are kept unique by `dictSet`). -/
abbrev Dict := List (String × Value)

/-- Python `d[k] = v`: replace the value in place if `k` is present, otherwise
append the new binding at the end (Python dicts preserve insertion order). -/
def dictSet (m : Dict) (k : String) (v : Value) : Dict :=
  if k ∈ m.map Prod.fst then
    m.map (fun kv => if kv.1 = k then (k, v) else kv)
  else
    m ++ [(k, v)]

/-- Python `d[k]` as a total lookup: the first binding of `k`, if any. -/
def dictGet (m : Dict) (k : String) : Option Value :=
  (m.find? (fun kv => kv.1 = k)).map Prod.snd

/-- The key set of a dictionary, in insertion order. -/
def dictKeys (m : Dict) : List String := m.map Prod.fst

/-- Python `Optional` argument as a dictionary value: `None` serializes to
`null` when the key is unconditionally assigned. -/
def pyOpt : Option Value → Value
  | none => .null
  | some v => v

/-- `StreamingCompletion.make_llm_req_map`: builds the request payload.
The first four keys are always assigned (`None` becoming a null value);
`max_new_tokens` and `server` are assigned only under `is not None` guards,
so an absent argument leaves the key absent. -/
def StreamingCompletion.make_llm_req_map
    (model_name : Option Value) (prompt : Option Value)
    (output_type : Option Value) (max_tokens : Option Value)
    (max_new_tokens : Option Value) (server : Option Value) : Dict :=
  [("model_name", pyOpt model_name),
   ("prompt", pyOpt prompt),
   ("output_type", pyOpt output_type),
   ("max_tokens", pyOpt max_tokens)]
  ++ (match max_new_tokens with
      | none => []
      | some v => [("max_new_tokens", v)])
  ++ (match server with
      | none => []
      | some v => [("server", v)])

/-- The mutable state shared by `StreamingCompletionObject.__init__` and
`AsyncStreamingCompletionObject.__init__`: both constructors set exactly
these fields. -/
structure SessionState where
  request_params : Dict
  api_url : String
  api_key : String
  done_streaming : Bool
  server : Option String
  polling_interval : Nat
  current_result : Value
  error_count : Nat
  max_errors : Nat
deriving DecidableEq

/-- A well-formed response from the inference collaborator: per the external
interface it carries a `server` affinity token and non-empty `status` and
`data` sequences, of which the client consumes the first elements. -/
structure PollResponse where
  server : String
  status0 : Bool
  data0 : Value
deriving DecidableEq

/-- The outcome of one request/response exchange as seen by the client:
either a well-formed response, or a transport/protocol failure carrying an
opaque error identifier. -/
inductive PollOutcome where
  | success (r : PollResponse)
  | failure (e : Nat)
deriving DecidableEq

/-- What a call to `next()` does to the caller: signal end of iteration
(`StopIteration`), return a result fragment, or re-raise a poll failure. -/
inductive NextResult where
  | stopIteration
  | value (v : Value)
  | raised (e : Nat)
deriving DecidableEq

/-- `StreamingCompletionObject.__init__`. -/
def StreamingCompletionObject.init
    (request_params : Dict) (api_url : String) (api_key : String)
    (polling_interval : Nat) (max_errors : Nat) : SessionState :=
  { request_params := request_params
    api_url := api_url
    api_key := api_key
    done_streaming := false
    server := none
    polling_interval := polling_interval
    current_result := .null
    error_count := 0
    max_errors := max_errors }

/-- `StreamingCompletionObject.next`, one poll step. The environment's
behaviour on the single `make_web_request` exchange is the `outcome`
argument. Returns the caller-visible result, the state after the call, and
the outgoing request payload (`none` when no exchange was performed). -/
def StreamingCompletionObject.next (s : SessionState) (outcome : PollOutcome) :
    NextResult × SessionState × Option Dict :=
  if s.done_streaming then
    (.stopIteration, s, none)
  else
    let rp := match s.server with
      | none => s.request_params
      | some srv => dictSet s.request_params "server" (.str srv)
    let s1 := { s with request_params := rp }
    match outcome with
    | .success r =>
        let s2 := { s1 with
          server := some r.server
          done_streaming := if r.status0 then true else s1.done_streaming
          current_result := r.data0 }
        (.value s2.current_result, s2, some rp)
    | .failure e =>
        let s2 := { s1 with error_count := s1.error_count + 1 }
        if s2.error_count > s2.max_errors then
          (.raised e, s2, some rp)
        else
          (.value s2.current_result, s2, some rp)

/-- The state of `AsyncStreamingCompletionObject`: the source duplicates the
fields of the blocking class verbatim. -/
structure AsyncSessionState where
  request_params : Dict
  api_url : String
  api_key : String
  done_streaming : Bool
  server : Option String
  polling_interval : Nat
  current_result : Value
  error_count : Nat
  max_errors : Nat
deriving DecidableEq

/-- `AsyncStreamingCompletionObject.__init__`. -/
def AsyncStreamingCompletionObject.init
    (request_params : Dict) (api_url : String) (api_key : String)
    (polling_interval : Nat) (max_errors : Nat) : AsyncSessionState :=
  { request_params := request_params
    api_url := api_url
    api_key := api_key
    done_streaming := false
    server := none
    polling_interval := polling_interval
    current_result := .null
    error_count := 0
    max_errors := max_errors }

/-- `AsyncStreamingCompletionObject.next`, one poll step: identical to the
blocking form except that the wait and the exchange suspend (`asyncio.sleep`,
`make_async_web_request`) instead of blocking. -/
def AsyncStreamingCompletionObject.next (s : AsyncSessionState) (outcome : PollOutcome) :
    NextResult × AsyncSessionState × Option Dict :=
  if s.done_streaming then
    (.stopIteration, s, none)
  else
    let rp := match s.server with
      | none => s.request_params
      | some srv => dictSet s.request_params "server" (.str srv)
    let s1 := { s with request_params := rp }
    match outcome with
    | .success r =>
        let s2 := { s1 with
          server := some r.server
          done_streaming := if r.status0 then true else s1.done_streaming
          current_result := r.data0 }
        (.value s2.current_result, s2, some rp)
    | .failure e =>
        let s2 := { s1 with error_count := s1.error_count + 1 }
        if s2.error_count > s2.max_errors then
          (.raised e, s2, some rp)
        else
          (.value s2.current_result, s2, some rp)

/-- Field-for-field correspondence between the blocking and cooperative
session states. -/
def toAsync (s : SessionState) : AsyncSessionState :=
  { request_params := s.request_params
    api_url := s.api_url
    api_key := s.api_key
    done_streaming := s.done_streaming
    server := s.server
    polling_interval := s.polling_interval
    current_result := s.current_result
    error_count := s.error_count
    max_errors := s.max_errors }

/-- Run a session through a sequence of poll outcomes, keeping the state
after each call to `next`. -/
def runPolls (s : SessionState) (os : List PollOutcome) : SessionState :=
  os.foldl (fun st o => (StreamingCompletionObject.next st o).2.1) s

/-- Modelled from the spec: `PromptObject` (`base_prompt_object.py` is not
under the sources examined) — an opaque unit with an input payload and an
optional `response` field, absent before generation. -/
structure PromptObject where
  data : Nat
  response : Option Nat
deriving DecidableEq

/-- The value a `preprocess`/`postprocess` hook returns for one item: either
a single value (a `PromptObject` or Python `None`) or a generator of such
values. -/
inductive HookResult where
  | single (x : Option PromptObject)
  | gen (xs : List (Option PromptObject))

/-- A node specialization's optional hook capabilities: `hasattr(self,
"preprocess")` and `hasattr(self, "postprocess")` become the presence of the
corresponding function. -/
structure NodeHooks where
  preprocess : Option (Option PromptObject → HookResult)
  postprocess : Option (Option PromptObject → HookResult)

/-- The node with neither hook declared. -/
def noHooks : NodeHooks := { preprocess := none, postprocess := none }

/-- The items `GenerationNode.transform_prompt` yields for one input item
`a`: with no `preprocess` capability, `a` passes through; a generator result
is flattened keeping the non-`None` items and skipping the single-value
path; a single non-`None` result replaces `a`; a single `None` result leaves
`a` bound to the original, which is then yielded. -/
def transformItem (pre : Option (Option PromptObject → HookResult))
    (a : Option PromptObject) : List (Option PromptObject) :=
  match pre with
  | none => [a]
  | some hook =>
    match hook a with
    | .gen xs => xs.filter (fun x => x.isSome)
    | .single mod_a =>
      match mod_a with
      | some p => [some p]
      | none => [a]

/-- `GenerationNode.transform_prompt` over a materialized input sequence. -/
def transform_prompt (node : NodeHooks) (input : List (Option PromptObject)) :
    List (Option PromptObject) :=
  input.flatMap (transformItem node.preprocess)

/-- The items `GenerationNode.process_results` yields for one generated item
`a`: items that are `None` or whose `response` is `None` are skipped
(`continue`); then the `postprocess` hook is applied with the same
expand/replace semantics as `preprocess`. -/
def processItem (post : Option (Option PromptObject → HookResult))
    (a : Option PromptObject) : List (Option PromptObject) :=
  match a with
  | none => []
  | some p =>
    if p.response.isSome then
      match post with
      | none => [some p]
      | some hook =>
        match hook (some p) with
        | .gen xs => xs.filter (fun x => x.isSome)
        | .single mod_a =>
          match mod_a with
          | some q => [some q]
          | none => [some p]
    else []

/-- `GenerationNode.process_results` over a materialized generated sequence. -/
def process_results (node : NodeHooks) (input : List (Option PromptObject)) :
    List (Option PromptObject) :=
  input.flatMap (processItem node.postprocess)

/-- Response annotation of one item. -/
def annotItem (resp : Nat → Option Nat) : Option PromptObject → Option PromptObject
  | none => none
  | some p => some { p with response := resp p.data }

/-- Modelled from the spec: `GenerationNode.generate` hands the transformed
sequence to the external inference queue
(`generation_queue_3_10.submit`, not under the sources examined), which
returns the same sequence with each item's `response` populated. -/
def generate (resp : Nat → Option Nat) (xs : List (Option PromptObject)) :
    List (Option PromptObject) :=
  xs.map (annotItem resp)

/-- `GenerationNode.__call__`: transform, then generate, then finalize. -/
def nodeCall (node : NodeHooks) (resp : Nat → Option Nat)
    (prompt : List (Option PromptObject)) : List (Option PromptObject) :=
  process_results node (generate resp (transform_prompt node prompt))

/-- An item whose `response` field is non-absent. -/
def responsePresent : Option PromptObject → Bool
  | none => false
  | some p => p.response.isSome

/-- `GenerationNode.make_llm_req_map`: the first four keys are always
assigned, `max_new_tokens` under an `is not None` guard, `model_config`
(already serialized by `as_dict`) only when the node-level configuration
object is present, and `type` is assigned `"completion"` unconditionally. -/
def GenerationNode.make_llm_req_map (model_config : Option Value)
    (model_name : Option Value) (prompt : Option Value)
    (output_type : Option Value) (max_tokens : Option Value)
    (max_new_tokens : Option Value) : Dict :=
  [("model_name", pyOpt model_name),
   ("prompt", pyOpt prompt),
   ("output_type", pyOpt output_type),
   ("max_tokens", pyOpt max_tokens)]
  ++ (match max_new_tokens with
      | none => []
      | some v => [("max_new_tokens", v)])
  ++ (match model_config with
      | none => []
      | some mc => [("model_config", mc)])
  ++ [("type", .str "completion")]

/-- A session with recorded polling interval 0 and `max_errors = 2`. -/
def demoS2 : SessionState :=
  StreamingCompletionObject.init [("prompt", .str "hi")] "u" "key" 0 2

/-- A session with `max_errors = 0`. -/
def demoS0 : SessionState :=
  StreamingCompletionObject.init [("prompt", .str "hi")] "u" "key" 0 0

/-- A session that has already finished streaming. -/
def demoDone : SessionState := { demoS0 with done_streaming := true }

/-- A fresh session used to trace server-affinity behaviour. -/
def c4s0 : SessionState :=
  StreamingCompletionObject.init
    [("model_name", .str "m"), ("prompt", .str "hi")] "u" "key" 0 0

/-- The session after its first response, which carries token `"s1"`. -/
def c4s1 : SessionState :=
  (StreamingCompletionObject.next c4s0 (.success ⟨"s1", false, .str "a"⟩)).2.1

/-- The session after a second response carrying a different token `"s2"`. -/
def c4s2 : SessionState :=
  (StreamingCompletionObject.next c4s1 (.success ⟨"s2", false, .str "b"⟩)).2.1

/-- A hook whose single-value result is always `None`. -/
def dropHook : Option PromptObject → HookResult := fun _ => .single none

/-- A hook that expands every input into a generator producing two
`PromptObject`s with a `None` between them. -/
def expandHook : Option PromptObject → HookResult :=
  fun _ => .gen [some ⟨1, none⟩, none, some ⟨2, none⟩]

theorem find?_replace_of_mem (k : String) (v : Value) (m : Dict)
    (h : k ∈ m.map Prod.fst) :
    (m.map (fun kv => if kv.1 = k then (k, v) else kv)).find?
      (fun kv => kv.1 = k) = some (k, v) := by
  induction m with
  | nil => simp at h
  | cons kv t ih =>
    by_cases hk : kv.1 = k
    · simp only [List.map_cons, if_pos hk]
      rw [List.find?_cons_of_pos _ (by simp)]
    · have h' : k ∈ t.map Prod.fst := by
        rw [List.map_cons] at h
        rcases List.mem_cons.1 h with h1 | h1
        · exact absurd h1.symm hk
        · exact h1
      rw [List.map_cons, if_neg hk, List.find?_cons_of_neg _ (by simp [hk])]
      exact ih h'

theorem find?_eq_none_of_not_mem (k : String) (m : Dict)
    (h : k ∉ m.map Prod.fst) :
    m.find? (fun kv => kv.1 = k) = none := by
  rw [List.find?_eq_none]
  intro x hx
  simp only [decide_eq_true_eq]
  intro hxk
  exact h (List.mem_map.2 ⟨x, hx, hxk⟩)

theorem dictGet_dictSet (m : Dict) (k : String) (v : Value) :
    dictGet (dictSet m k v) k = some v := by
  unfold dictGet dictSet
  by_cases h : k ∈ m.map Prod.fst
  · rw [if_pos h, find?_replace_of_mem k v m h]
    rfl
  · rw [if_neg h, List.find?_append, find?_eq_none_of_not_mem k m h]
    simp [List.find?]

/-- C10: `StreamingCompletion.make_llm_req_map` on
`(model_name="m", prompt="hi", output_type=None, max_tokens=None,
max_new_tokens=None, server=None)` returns exactly the four-key mapping with
null `output_type` and `max_tokens` and no `max_new_tokens` or `server` key;
in general those two keys are present exactly when the corresponding
argument is non-absent. -/
theorem c10_request_map_scenario :
    (StreamingCompletion.make_llm_req_map (some (.str "m")) (some (.str "hi"))
        none none none none
      = [("model_name", .str "m"), ("prompt", .str "hi"),
         ("output_type", .null), ("max_tokens", .null)]) ∧
    (∀ mn p ot mt mnt srv : Option Value,
      ("max_new_tokens" ∈
          dictKeys (StreamingCompletion.make_llm_req_map mn p ot mt mnt srv)
        ↔ mnt ≠ none) ∧
      ("server" ∈
          dictKeys (StreamingCompletion.make_llm_req_map mn p ot mt mnt srv)
        ↔ srv ≠ none)) := by
  refine ⟨rfl, fun mn p ot mt mnt srv => ?_⟩
  cases mnt <;> cases srv <;>
    simp [StreamingCompletion.make_llm_req_map, dictKeys]

/-- C7: in `GenerationNode.make_llm_req_map` the `model_config` key is
present exactly when the node-level model configuration object is present,
and when it is present the request carries `type = "completion"`. -/
theorem c7_model_config_key (mc mn p ot mt mnt : Option Value) :
    ("model_config" ∈
        dictKeys (GenerationNode.make_llm_req_map mc mn p ot mt mnt)
      ↔ mc ≠ none) ∧
    (mc ≠ none →
      ("type", Value.str "completion")
        ∈ GenerationNode.make_llm_req_map mc mn p ot mt mnt) := by
  cases mc <;> cases mnt <;>
    simp [GenerationNode.make_llm_req_map, dictKeys]

theorem c7_witness :
    ("model_config" ∈
        dictKeys (GenerationNode.make_llm_req_map (some (.num 1))
          (some (.str "m")) (some (.str "hi")) none none none)) ∧
    ("type", Value.str "completion")
      ∈ GenerationNode.make_llm_req_map (some (.num 1))
          (some (.str "m")) (some (.str "hi")) none none none := by
  have H := c7_model_config_key (some (.num 1))
    (some (.str "m")) (some (.str "hi")) none none none
  exact ⟨H.1.2 (by decide), H.2 (by decide)⟩

/-- C9: calling `next` on a session whose `done_streaming` flag is already
true signals end-of-sequence (`StopIteration` / `StopAsyncIteration`, not an
error), performs no network exchange (no outgoing request), and leaves the
session state unchanged — in both the blocking and the cooperative form. -/
theorem c9_done_session (s : SessionState) (o : PollOutcome)
    (h : s.done_streaming = true) :
    StreamingCompletionObject.next s o = (.stopIteration, s, none) ∧
    AsyncStreamingCompletionObject.next (toAsync s) o
      = (.stopIteration, toAsync s, none) := by
  constructor
  · simp [StreamingCompletionObject.next, h]
  · simp [AsyncStreamingCompletionObject.next, toAsync, h]

theorem c9_witness :
    StreamingCompletionObject.next demoDone (.failure 0)
      = (.stopIteration, demoDone, none) ∧
    AsyncStreamingCompletionObject.next (toAsync demoDone) (.failure 0)
      = (.stopIteration, toAsync demoDone, none) :=
  c9_done_session demoDone (.failure 0) rfl

/-- C5: the blocking and cooperative iterators are behaviorally identical
modulo the suspension mechanism: the two constructors applied to the same
arguments yield corresponding states, and on corresponding states the same
poll outcome produces the same caller-visible result, the same outgoing
request, and corresponding successor states. -/
theorem c5_dual_mode_equivalence (rp : Dict) (u key : String)
    (interval me : Nat) (s : SessionState) (o : PollOutcome) :
    AsyncStreamingCompletionObject.init rp u key interval me
      = toAsync (StreamingCompletionObject.init rp u key interval me) ∧
    AsyncStreamingCompletionObject.next (toAsync s) o
      = ((StreamingCompletionObject.next s o).1,
         toAsync (StreamingCompletionObject.next s o).2.1,
         (StreamingCompletionObject.next s o).2.2) := by
  refine ⟨rfl, ?_⟩
  obtain ⟨rp', u', k', d, srv, pin, cur, ec, me'⟩ := s
  cases d <;> cases o <;>
    simp [StreamingCompletionObject.next, AsyncStreamingCompletionObject.next,
      toAsync]
  · split <;> rfl

theorem next_failure_fields (s : SessionState) (e : Nat)
    (h : s.done_streaming = false) :
    (StreamingCompletionObject.next s (.failure e)).2.1.error_count
        = s.error_count + 1 ∧
    (StreamingCompletionObject.next s (.failure e)).2.1.done_streaming = false ∧
    (StreamingCompletionObject.next s (.failure e)).2.1.current_result
        = s.current_result ∧
    (StreamingCompletionObject.next s (.failure e)).2.1.max_errors
        = s.max_errors ∧
    (StreamingCompletionObject.next s (.failure e)).2.1.server = s.server := by
  simp only [StreamingCompletionObject.next, h, Bool.false_eq_true, if_false]
  split <;> simp

theorem next_failure_swallow (s : SessionState) (e : Nat)
    (hd : s.done_streaming = false) (hc : s.error_count + 1 ≤ s.max_errors) :
    (StreamingCompletionObject.next s (.failure e)).1
      = .value s.current_result := by
  simp only [StreamingCompletionObject.next, hd, Bool.false_eq_true, if_false]
  rw [if_neg (by omega)]

theorem next_failure_raise (s : SessionState) (e : Nat)
    (hd : s.done_streaming = false) (hc : s.max_errors < s.error_count + 1) :
    (StreamingCompletionObject.next s (.failure e)).1 = .raised e := by
  simp only [StreamingCompletionObject.next, hd, Bool.false_eq_true, if_false]
  rw [if_pos (by omega)]

theorem replicate_failure_fields (e : Nat) :
    ∀ (j : Nat) (s : SessionState), s.done_streaming = false →
      (runPolls s (List.replicate j (.failure e))).error_count
          = s.error_count + j ∧
      (runPolls s (List.replicate j (.failure e))).done_streaming = false ∧
      (runPolls s (List.replicate j (.failure e))).current_result
          = s.current_result ∧
      (runPolls s (List.replicate j (.failure e))).max_errors
          = s.max_errors := by
  intro j
  induction j with
  | zero => intro s h; simp [runPolls, h]
  | succ j ih =>
    intro s h
    have hstep := next_failure_fields s e h
    have hrec := ih (StreamingCompletionObject.next s (.failure e)).2.1 hstep.2.1
    have hfold : runPolls s (List.replicate (j + 1) (.failure e))
        = runPolls (StreamingCompletionObject.next s (.failure e)).2.1
            (List.replicate j (.failure e)) := by
      simp [runPolls, List.replicate_succ]
    rw [hfold]
    refine ⟨?_, hrec.2.1, ?_, ?_⟩
    · rw [hrec.1, hstep.1]; omega
    · rw [hrec.2.2.1, hstep.2.2.1]
    · rw [hrec.2.2.2, hstep.2.2.2.1]

/-- C1: on an active session a poll failure increments `error_count`, and is
swallowed — the call returns the previous `current_result` unchanged and the
session stays active — whenever `error_count ≤ max_errors` after the
increment; with `max_errors = 0` the first failure re-raises; with
`max_errors = k` and a zero error count, each of the first `k` consecutive
failures is swallowed returning the unchanged result, and the `(k+1)`th
failure re-raises the underlying error. -/
theorem c1_bounded_error_policy (s : SessionState) (e : Nat)
    (hd : s.done_streaming = false) :
    (s.error_count + 1 ≤ s.max_errors →
      (StreamingCompletionObject.next s (.failure e)).1
          = .value s.current_result ∧
      (StreamingCompletionObject.next s (.failure e)).2.1.error_count
          = s.error_count + 1 ∧
      (StreamingCompletionObject.next s (.failure e)).2.1.done_streaming
          = false ∧
      (StreamingCompletionObject.next s (.failure e)).2.1.current_result
          = s.current_result) ∧
    (s.max_errors = 0 →
      (StreamingCompletionObject.next s (.failure e)).1 = .raised e) ∧
    (s.error_count = 0 →
      (∀ j, j < s.max_errors →
        (StreamingCompletionObject.next
            (runPolls s (List.replicate j (.failure e))) (.failure e)).1
          = .value s.current_result) ∧
      (StreamingCompletionObject.next
          (runPolls s (List.replicate s.max_errors (.failure e)))
          (.failure e)).1
        = .raised e) := by
  have hfields := next_failure_fields s e hd
  refine ⟨fun hc => ⟨next_failure_swallow s e hd hc, hfields.1, hfields.2.1,
      hfields.2.2.1⟩, fun h0 => next_failure_raise s e hd (by omega), ?_⟩
  intro hz
  constructor
  · intro j hj
    have hrep := replicate_failure_fields e j s hd
    have := next_failure_swallow (runPolls s (List.replicate j (.failure e))) e
      hrep.2.1 (by rw [hrep.1, hrep.2.2.2]; omega)
    rw [this, hrep.2.2.1]
  · have hrep := replicate_failure_fields e s.max_errors s hd
    exact next_failure_raise _ e hrep.2.1 (by rw [hrep.1, hrep.2.2.2]; omega)

theorem c1_witness :
    (StreamingCompletionObject.next demoS2 (.failure 7)).1
        = .value demoS2.current_result ∧
    (StreamingCompletionObject.next demoS0 (.failure 7)).1 = .raised 7 ∧
    (StreamingCompletionObject.next demoS2 (.failure 7)).2.1.error_count = 1 ∧
    (StreamingCompletionObject.next
        (runPolls demoS2 (List.replicate 2 (.failure 7))) (.failure 7)).1
      = .raised 7 := by
  have A := c1_bounded_error_policy demoS2 7 rfl
  have B := c1_bounded_error_policy demoS0 7 rfl
  exact ⟨(A.1 (by decide)).1, B.2.1 rfl, (A.1 (by decide)).2.1,
    (A.2.2 rfl).2⟩

theorem next_mono (s : SessionState) (o : PollOutcome) :
    s.error_count ≤ (StreamingCompletionObject.next s o).2.1.error_count ∧
    (s.done_streaming = true →
      (StreamingCompletionObject.next s o).2.1.done_streaming = true) := by
  cases hd : s.done_streaming <;> cases o <;>
    (simp [StreamingCompletionObject.next, hd]
     try (split <;> simp))

/-- C8: across any sequence of poll outcomes — successes, swallowed
failures, or propagated failures — `error_count` never decreases, and the
`done_streaming` flag never reverts from true to false, so the session
transitions to the terminal state at most once. -/
theorem c8_monotone_session (s : SessionState) (os : List PollOutcome) :
    s.error_count ≤ (runPolls s os).error_count ∧
    (s.done_streaming = true → (runPolls s os).done_streaming = true) := by
  induction os generalizing s with
  | nil => exact ⟨le_refl _, fun h => h⟩
  | cons o os ih =>
    have h1 := next_mono s o
    have h2 := ih (StreamingCompletionObject.next s o).2.1
    have hfold : runPolls s (o :: os)
        = runPolls (StreamingCompletionObject.next s o).2.1 os := by
      simp [runPolls]
    rw [hfold]
    exact ⟨le_trans h1.1 h2.1, fun hd => h2.2 (h1.2 hd)⟩

theorem c8_witness :
    demoDone.error_count
        ≤ (runPolls demoDone [.failure 3, .success ⟨"s", true, .str "x"⟩,
            .failure 4]).error_count ∧
    (runPolls demoDone [.failure 3, .success ⟨"s", true, .str "x"⟩,
        .failure 4]).done_streaming = true := by
  have H := c8_monotone_session demoDone
    [.failure 3, .success ⟨"s", true, .str "x"⟩, .failure 4]
  exact ⟨H.1, H.2 rfl⟩

/-- C4 as stated is false on the code: after the first response the session
stores token `"s1"`, but a later response carrying `"s2"` overwrites it
(`self.server = resp["server"]` runs on every success), so the next outgoing
poll request carries `"s2"`, not the first-learned token `"s1"`. -/
theorem c4_counterexample :
    c4s1.server = some "s1" ∧
    (StreamingCompletionObject.next c4s2 (.failure 0)).2.2.map
        (fun m => dictGet m "server")
      = some (some (.str "s2")) ∧
    some (Value.str "s2") ≠ some (Value.str "s1") := by
  refine ⟨rfl, by decide, by decide⟩

/-- C4 amended: once a server affinity token has been learned the session's
`server` field always holds a token (it never reverts to absent), every
subsequent outgoing poll request carries the most recently learned token in
its `server` key, and each successful response overwrites the stored token
with that response's token. -/
theorem c4_sticky_latest_token (s : SessionState) (t : String)
    (o : PollOutcome) (r : PollResponse)
    (hs : s.server = some t) (hd : s.done_streaming = false) :
    (StreamingCompletionObject.next s o).2.2.map (fun m => dictGet m "server")
      = some (some (.str t)) ∧
    ((StreamingCompletionObject.next s o).2.1.server).isSome = true ∧
    (StreamingCompletionObject.next s (.success r)).2.1.server
      = some r.server := by
  have key : dictGet (dictSet s.request_params "server" (.str t)) "server"
      = some (.str t) := dictGet_dictSet s.request_params "server" (.str t)
  refine ⟨?_, ?_, ?_⟩
  · cases o <;>
      (simp [StreamingCompletionObject.next, hd, hs, key]
       try (split <;> simp [key]))
  · cases o <;>
      (simp [StreamingCompletionObject.next, hd, hs]
       try (split <;> simp [hs]))
  · simp [StreamingCompletionObject.next, hd, hs]

theorem c4_witness :
    ((StreamingCompletionObject.next c4s1 (.failure 0)).2.2.map
        (fun m => dictGet m "server") = some (some (.str "s1"))) ∧
    (StreamingCompletionObject.next c4s1
        (.success ⟨"s2", false, .str "b"⟩)).2.1.server = some "s2" := by
  have H := c4_sticky_latest_token c4s1 "s1" (.failure 0)
    ⟨"s2", false, .str "b"⟩ rfl rfl
  exact ⟨H.1, H.2.2⟩

theorem transform_prompt_noHooks (xs : List (Option PromptObject)) :
    transform_prompt noHooks xs = xs := by
  induction xs with
  | nil => rfl
  | cons a t ih =>
    simp only [transform_prompt, List.flatMap_cons] at ih ⊢
    rw [ih]
    rfl

theorem process_results_noHooks (ys : List (Option PromptObject)) :
    process_results noHooks ys = ys.filter responsePresent := by
  induction ys with
  | nil => rfl
  | cons a t ih =>
    simp only [process_results, List.flatMap_cons] at ih ⊢
    rw [ih]
    cases a with
    | none => simp [processItem, responsePresent, List.filter]
    | some p =>
      cases hp : p.response <;>
        simp [processItem, responsePresent, noHooks, List.filter, hp]

/-- C2: a node that declares neither a `preprocess` nor a `postprocess`
capability is the identity pipeline: running transform, then generation
(which annotates each item's `response`), then finalize yields exactly the
annotated input sequence restricted to the items whose `response` is
non-absent, in order, with no item modified by the pipeline stages. -/
theorem c2_no_hook_identity (resp : Nat → Option Nat)
    (xs : List (Option PromptObject)) :
    nodeCall noHooks resp xs = (generate resp xs).filter responsePresent := by
  rw [nodeCall, transform_prompt_noHooks, process_results_noHooks]

/-- C3 as stated is false on the code: when the `preprocess` hook returns a
single `None`, `transform_prompt` does not drop the item — the guard
`if mod_a is not None` leaves `a` bound to the original item, which is then
yielded downstream unchanged. -/
theorem c3_counterexample :
    transform_prompt { preprocess := some dropHook, postprocess := none }
        [some ⟨0, none⟩]
      = [some ⟨0, none⟩] ∧
    transform_prompt { preprocess := some dropHook, postprocess := none }
        [some ⟨0, none⟩]
      ≠ ([] : List (Option PromptObject)) := by
  exact ⟨rfl, by decide⟩

/-- C3 amended: when the `preprocess` hook returns a single value that is
`None`, the original input item is passed through downstream unchanged (the
item is not dropped); symmetrically in the finalize stage, a `postprocess`
hook returning a single `None` yields the original generated item. -/
theorem c3_none_keeps_original (pre post : Option PromptObject → HookResult)
    (a : Option PromptObject) (p : PromptObject)
    (h1 : pre a = .single none) (h2 : post (some p) = .single none)
    (h3 : p.response.isSome = true) :
    transformItem (some pre) a = [a] ∧
    processItem (some post) (some p) = [some p] := by
  constructor
  · simp [transformItem, h1]
  · simp [processItem, h2, h3]

theorem c3_witness :
    transformItem (some dropHook) (some ⟨0, none⟩) = [some ⟨0, none⟩] ∧
    processItem (some dropHook) (some ⟨0, some 5⟩) = [some ⟨0, some 5⟩] :=
  c3_none_keeps_original dropHook dropHook (some ⟨0, none⟩) ⟨0, some 5⟩
    rfl rfl rfl

/-- C6: when the `preprocess` hook returns a generator for an input item,
the generator is flattened in place of that item: exactly its non-`None`
products are emitted downstream, contiguously and in hook-determined order,
and the single-value replacement path is skipped for that input. -/
theorem c6_generator_flatten (pre : Option PromptObject → HookResult)
    (a : Option PromptObject) (xs l1 l2 : List (Option PromptObject))
    (h : pre a = .gen xs) :
    transformItem (some pre) a = xs.filter (fun x => x.isSome) ∧
    transform_prompt { preprocess := some pre, postprocess := none }
        (l1 ++ a :: l2)
      = transform_prompt { preprocess := some pre, postprocess := none } l1
        ++ xs.filter (fun x => x.isSome)
        ++ transform_prompt { preprocess := some pre, postprocess := none }
            l2 := by
  have h1 : transformItem (some pre) a = xs.filter (fun x => x.isSome) := by
    simp [transformItem, h]
  refine ⟨h1, ?_⟩
  simp only [transform_prompt, List.flatMap_append, List.flatMap_cons, h1,
    List.append_assoc]

theorem c6_witness :
    transformItem (some expandHook) (some ⟨0, none⟩)
      = [some ⟨1, none⟩, some ⟨2, none⟩] ∧
    transform_prompt { preprocess := some expandHook, postprocess := none }
        ([] ++ (some ⟨0, none⟩) :: [])
      = [some ⟨1, none⟩, some ⟨2, none⟩] := by
  have H := c6_generator_flatten expandHook (some ⟨0, none⟩)
    [some ⟨1, none⟩, none, some ⟨2, none⟩] [] [] rfl
  refine ⟨?_, ?_⟩
  · rw [H.1]; rfl
  · rw [H.2]; rfl
